import Mathlib

/-
Verification of the liveness pipeline of the iot-door-unlock-system
repository.

Shallow embedding of:
  * server/pseudo_depth_generator.py (`_create_single_pseudo_depth_map`),
  * server/tests/recognition_server _before.py (`perform_liveness_check`),
  * server/tests/dotextractiontestcopy.py (same dot pipeline as the server
    variant).

Pixel grids are embedded as functions `Nat -> Nat -> Nat` (uint8 values,
0..255), image shapes and box coordinates as integers, real-valued maps as
rationals with NaN embedded as `none : Option Rat`.
-/

namespace DoorUnlock

/-! ## Pseudo-depth generator: odd-kernel forcing (pseudo_depth_generator.py) -/

/-- Embeds pseudo_depth_generator.py lines 39-40:
`k_w = blur_kernel_size[0] if blur_kernel_size[0] % 2 != 0 else blur_kernel_size[0] + 1`
(and the same for `k_h`), the kernel actually passed to the first
`cv2.GaussianBlur` call. -/
def initialBlurKernel (blur_kernel_size : ℕ × ℕ) : ℕ × ℕ :=
  (if blur_kernel_size.1 % 2 ≠ 0 then blur_kernel_size.1 else blur_kernel_size.1 + 1,
   if blur_kernel_size.2 % 2 ≠ 0 then blur_kernel_size.2 else blur_kernel_size.2 + 1)

/-- Embeds pseudo_depth_generator.py lines 114-115:
`k_w_final = final_blur_kernel_size[0] if final_blur_kernel_size[0] % 2 != 0 else final_blur_kernel_size[0] + 1`
(and the same for `k_h_final`), the kernel passed to the final
`cv2.GaussianBlur` call. -/
def finalBlurKernel (final_blur_kernel_size : ℕ × ℕ) : ℕ × ℕ :=
  (if final_blur_kernel_size.1 % 2 ≠ 0 then final_blur_kernel_size.1
    else final_blur_kernel_size.1 + 1,
   if final_blur_kernel_size.2 % 2 ≠ 0 then final_blur_kernel_size.2
    else final_blur_kernel_size.2 + 1)

/-! ## Elliptical mask application (pseudo_depth_generator.py) -/

/-- `cv2.bitwise_and(src, src, mask=mask)` on single-channel images: the
output pixel is `src AND src` (= `src`) where the mask is nonzero and `0`
elsewhere.  Embeds pseudo_depth_generator.py line 63:
`data_for_plotting = cv2.bitwise_and(data_for_plotting, data_for_plotting, mask=mask)`. -/
def bitwiseAndSelfMasked (src mask : ℕ → ℕ → ℕ) : ℕ → ℕ → ℕ :=
  fun i j => if mask i j ≠ 0 then Nat.land (src i j) (src i j) else 0

/-- Two-argument `cv2.bitwise_and(a, b)`: pixelwise bitwise AND.  Embeds
pseudo_depth_generator.py lines 86, 103 and 120, where the colorized image
is ANDed with the (binary 0/255) 3-channel mask, e.g.
`final_image_before_brightness = cv2.bitwise_and(display_data_color, display_mask_3ch)`. -/
def bitwiseAndPair (src1 src2 : ℕ → ℕ → ℕ) : ℕ → ℕ → ℕ :=
  fun i j => Nat.land (src1 i j) (src2 i j)

/-! ## SSIM sliding-window size (recognition_server _before.py) -/

/-- Embeds recognition_server _before.py lines 942-943:
`win_size = min(7, target_h // 2 * 2 + 1, target_w // 2 * 2 + 1)` followed by
`if win_size < 3 : win_size = 3`. -/
def ssimWinSize (target_h target_w : ℕ) : ℕ :=
  if min 7 (min (target_h / 2 * 2 + 1) (target_w / 2 * 2 + 1)) < 3 then 3
  else min 7 (min (target_h / 2 * 2 + 1) (target_w / 2 * 2 + 1))

/-! ## Primary-face selection (recognition_server _before.py lines 681-683) -/

/-- Axis-aligned face bounding box as produced by
`face_cascade.detectMultiScale`. -/
structure FaceBox where
  x : ℤ
  y : ℤ
  w : ℤ
  h : ℤ
deriving DecidableEq

/-- The sort key of line 682: `lambda f: f[2]*f[3]`, the bounding-box area. -/
def FaceBox.area (f : FaceBox) : ℤ := f.w * f.h

/-- Embeds recognition_server _before.py lines 682-683:
`faces = sorted(faces, key=lambda f: f[2]*f[3], reverse=True)` followed by
`fx, fy, fw, fh = faces[0]`.  Python `sorted` is a stable mergesort;
`reverse=True` orders by descending key. -/
def selectPrimaryFace (faces : List FaceBox) : Option FaceBox :=
  (faces.mergeSort (fun a b => decide (FaceBox.area b ≤ FaceBox.area a))).head?

/-! ## Theorems -/

/-- C7: for every configured blur kernel dimension at both blur stages of
the pseudo-depth pipeline, an even dimension `k` is replaced by `k + 1` and
an odd dimension is used unchanged, so the kernel actually used is always
odd. -/
theorem blur_kernels_forced_odd (k : ℕ × ℕ) :
    (k.1 % 2 = 0 → (initialBlurKernel k).1 = k.1 + 1 ∧ (finalBlurKernel k).1 = k.1 + 1) ∧
    (k.1 % 2 ≠ 0 → (initialBlurKernel k).1 = k.1 ∧ (finalBlurKernel k).1 = k.1) ∧
    (k.2 % 2 = 0 → (initialBlurKernel k).2 = k.2 + 1 ∧ (finalBlurKernel k).2 = k.2 + 1) ∧
    (k.2 % 2 ≠ 0 → (initialBlurKernel k).2 = k.2 ∧ (finalBlurKernel k).2 = k.2) ∧
    (initialBlurKernel k).1 % 2 = 1 ∧ (initialBlurKernel k).2 % 2 = 1 ∧
    (finalBlurKernel k).1 % 2 = 1 ∧ (finalBlurKernel k).2 % 2 = 1 := by
  obtain ⟨a, b⟩ := k
  simp only [initialBlurKernel, finalBlurKernel]
  rcases Nat.mod_two_eq_zero_or_one a with ha | ha <;>
    rcases Nat.mod_two_eq_zero_or_one b with hb | hb <;>
      simp [ha, hb, Nat.add_mod]

/-- Witness for `blur_kernels_forced_odd` at the configured default-style
sizes (an even 40 and an odd 45). -/
theorem blur_kernels_forced_odd_witness :
    (initialBlurKernel (40, 45)).1 = 41 ∧ (finalBlurKernel (40, 45)).2 = 45 := by
  have h := blur_kernels_forced_odd (40, 45)
  exact ⟨(h.1 (by decide)).1, (h.2.2.2.1 (by decide)).2⟩

/-- C8: applying the elliptical binary mask twice in sequence yields exactly
the same array as applying it once, both in the masked self-AND form used on
the grayscale data (line 63) and in the two-argument AND form used on the
colorized data (lines 86, 103, 120). -/
theorem mask_application_idempotent (img mask : ℕ → ℕ → ℕ) :
    bitwiseAndSelfMasked (bitwiseAndSelfMasked img mask) mask =
      bitwiseAndSelfMasked img mask ∧
    bitwiseAndPair (bitwiseAndPair img mask) mask = bitwiseAndPair img mask := by
  constructor
  · funext i j
    simp only [bitwiseAndSelfMasked]
    split
    · show ((img i j &&& img i j) &&& (img i j &&& img i j)) = img i j &&& img i j
      rw [Nat.and_self, Nat.and_self]
    · rfl
  · funext i j
    simp only [bitwiseAndPair]
    show (img i j &&& mask i j) &&& mask i j = img i j &&& mask i j
    rw [Nat.and_assoc, Nat.and_self]

/-- C6 counterexample: for the 4 × 4 heatmap, the computed SSIM window size
is 5, which exceeds `min 4 4`; the claim that the window is at most
`min h w` for every `h, w ≥ 1` is false. -/
theorem ssim_win_size_exceeds_counterexample :
    ssimWinSize 4 4 = 5 ∧ ¬ ssimWinSize 4 4 ≤ min 4 4 := by decide

/-- For odd `n`, `n / 2 * 2 + 1 = n`. -/
theorem odd_div_two_mul_two_add_one {n : ℕ} (h : n % 2 = 1) : n / 2 * 2 + 1 = n := by
  omega

/-- C6 amended: the SSIM window size is always odd and at most 7; it is at
most `min h w` whenever `min h w ≥ 8` or `min h w` is odd and at least 3,
but for even or tiny smaller dimensions it can exceed `min h w` (so the
invalid-window branch of the SSIM call is reachable for small even crops). -/
theorem ssim_win_size_odd_le_seven (target_h target_w : ℕ) :
    ssimWinSize target_h target_w % 2 = 1 ∧
    ssimWinSize target_h target_w ≤ 7 ∧
    (8 ≤ min target_h target_w →
      ssimWinSize target_h target_w ≤ min target_h target_w) ∧
    (min target_h target_w % 2 = 1 → 3 ≤ min target_h target_w →
      ssimWinSize target_h target_w ≤ min target_h target_w) := by
  unfold ssimWinSize
  refine ⟨?_, ?_, ?_, ?_⟩
  · split <;> omega
  · split <;> omega
  · intro h8
    split <;> omega
  · intro hodd h3
    split <;> omega

/-- Witness for `ssim_win_size_odd_le_seven` at a 5 × 9 heatmap. -/
theorem ssim_win_size_odd_le_seven_witness :
    ssimWinSize 5 9 ≤ min 5 9 := by
  exact (ssim_win_size_odd_le_seven 5 9).2.2.2 (by decide) (by decide)

/-- C10: the liveness check processes exactly the detected face of maximal
bounding-box area: `selectPrimaryFace` returns an element of the detected
list whose area is at least every other detection's area, and all other
regions are dropped (only this single box is returned). -/
theorem primary_face_has_max_area (faces : List FaceBox) (hne : faces ≠ []) :
    ∃ f, selectPrimaryFace faces = some f ∧ f ∈ faces ∧
      ∀ g ∈ faces, FaceBox.area g ≤ FaceBox.area f := by
  set le := fun a b : FaceBox => decide (FaceBox.area b ≤ FaceBox.area a) with hle
  have hperm : (faces.mergeSort le).Perm faces := List.mergeSort_perm faces le
  have hsorted : List.Pairwise (fun a b => le a b = true) (faces.mergeSort le) := by
    refine List.sorted_mergeSort ?_ ?_ faces
    · intro a b c hab hbc
      simp only [hle, decide_eq_true_eq] at hab hbc ⊢
      exact le_trans hbc hab
    · intro a b
      simp only [hle]
      rcases le_total (FaceBox.area b) (FaceBox.area a) with h | h
      · simp [h]
      · simp [h]
  obtain ⟨f, rest, hcons⟩ : ∃ f rest, faces.mergeSort le = f :: rest := by
    cases hsort : faces.mergeSort le with
    | nil =>
      exfalso
      have := hperm.length_eq
      rw [hsort] at this
      exact hne (List.length_eq_zero.mp this.symm)
    | cons f rest => exact ⟨f, rest, rfl⟩
  refine ⟨f, ?_, ?_, ?_⟩
  · simp [selectPrimaryFace, hcons]
  · exact hperm.mem_iff.mp (by simp [hcons])
  · intro g hg
    have hg2 : g ∈ faces.mergeSort le := hperm.mem_iff.mpr hg
    rw [hcons] at hg2
    rcases List.mem_cons.mp hg2 with h | h
    · exact le_of_eq (by rw [h])
    · have := hsorted
      rw [hcons] at this
      have hpair := (List.pairwise_cons.mp this).1 g h
      simpa [hle, decide_eq_true_eq] using hpair

/-- Witness for `primary_face_has_max_area` on a concrete two-face list. -/
theorem primary_face_has_max_area_witness :
    ∃ f, selectPrimaryFace [⟨0, 0, 2, 3⟩, ⟨1, 1, 4, 5⟩] = some f ∧
      f ∈ [(⟨0, 0, 2, 3⟩ : FaceBox), ⟨1, 1, 4, 5⟩] ∧
      ∀ g ∈ [(⟨0, 0, 2, 3⟩ : FaceBox), ⟨1, 1, 4, 5⟩],
        FaceBox.area g ≤ FaceBox.area f := by
  exact primary_face_has_max_area [⟨0, 0, 2, 3⟩, ⟨1, 1, 4, 5⟩] (by simp)

/-! ## Heatmap NaN fill (recognition_server _before.py lines 816-826) -/

/-- numpy `nanmedian` over a flat list of heatmap cells, NaN embedded as
`none`: the median of the sorted non-NaN values (the mean of the two middle
values for an even count), `none` when every value is NaN. -/
def nanmedian (cells : List (Option ℚ)) : Option ℚ :=
  let vals := (cells.filterMap id).mergeSort (fun a b => decide (a ≤ b))
  if vals.length = 0 then none
  else if vals.length % 2 = 1 then some (vals.getD (vals.length / 2) 0)
  else some ((vals.getD (vals.length / 2 - 1) 0 + vals.getD (vals.length / 2) 0) / 2)

/-- Embeds recognition_server _before.py lines 821-826 (identically
dotextractiontestcopy.py lines 222-227):
`if np.isnan(heatmap_norm).any(): median_val = np.nanmedian(heatmap_norm);`
`if np.isnan(median_val): median_val = 0;`
`heatmap_norm = np.nan_to_num(heatmap_norm, nan=median_val)`. -/
def handleHeatmapNaN (heatmap_norm : List (List (Option ℚ))) : List (List (Option ℚ)) :=
  if heatmap_norm.any (fun row => row.any fun c => c.isNone) then
    let median_val : ℚ :=
      match nanmedian heatmap_norm.flatten with
      | none => 0
      | some v => v
    heatmap_norm.map fun row => row.map fun c => some (c.getD median_val)
  else heatmap_norm

/-! ## Comparison block, verdict and exception handling -/

/-- The liveness verdict state held by `perform_liveness_check`: the
`is_live` flag (initialized `False` at line 645) and the similarity score
(initialized `-1.0` at line 858). -/
structure Verdict where
  is_live : Bool
  score : ℚ
deriving DecidableEq

/-- recognition_server _before.py line 52: `SIMILARITY_THRESHOLD = 0.3`. -/
def SIMILARITY_THRESHOLD : ℚ := 3 / 10

/-- Embeds the face-ROI clamping and degeneracy check that open the
comparison `try` block, recognition_server _before.py lines 891-893:
`fx_c, fy_c, fw_c, fh_c = max(0, fx), max(0, fy), min(fw, fw_img - fx), min(fh, fh_img - fy)`
then `if fw_c <= 0 or fh_c <= 0: raise ValueError("Invalid face ROI dimensions after clamping")`.
The depth-model inference, resize and SSIM numerics that follow are
external computations whose outcome (a score, or an exception with its
message) is the `ssim_result` argument. -/
def depthComparisonBody (fh_img fw_img fx fy fw fh : ℤ)
    (ssim_result : Except String ℚ) : Except String ℚ :=
  let fw_c := min fw (fw_img - fx)
  let fh_c := min fh (fh_img - fy)
  if fw_c ≤ 0 ∨ fh_c ≤ 0 then Except.error "Invalid face ROI dimensions after clamping"
  else ssim_result

/-- Embeds the comparison block together with its thresholding and except
handler (recognition_server _before.py lines 963-965 and 974-978): on a
computed score `s`, `is_live = similarity_score > SIMILARITY_THRESHOLD`;
on any exception, `is_live = False` and `similarity_score = -1.0`, and the
exception is not re-raised (the function always returns a verdict). -/
def depthComparisonVerdict (fh_img fw_img fx fy fw fh : ℤ)
    (ssim_result : Except String ℚ) : Verdict :=
  match depthComparisonBody fh_img fw_img fx fy fw fh ssim_result with
  | Except.ok s => { is_live := decide (SIMILARITY_THRESHOLD < s), score := s }
  | Except.error _ => { is_live := false, score := -1 }

/-! ## Dot extraction and recorded intensity -/

/-- recognition_server _before.py line 692: `gray = cv2.bitwise_not(gray)`;
for uint8 data, bitwise NOT is `255 - v`. -/
def bitwiseNotFrame (gray : ℕ → ℕ → ℕ) : ℕ → ℕ → ℕ :=
  fun i j => 255 - gray i j

/-- A retained structured-light dot: its image-plane coordinates and the
recorded intensity. -/
structure DotPoint where
  x : ℕ
  y : ℕ
  intensity : ℕ
deriving DecidableEq

/-- Embeds the blob-filter loop of recognition_server _before.py lines
724-737 (identically dotextractiontestcopy.py lines 125-138): a keypoint is
retained when its centre lies strictly inside the face box
(`if fx < x < fx + fw and fy < y < fy + fh`); its intensity is then read at
the clamped centroid (`y_clamped = max(0, min(y, gray.shape[0] - 1))`,
`x_clamped = max(0, min(x, gray.shape[1] - 1))`, `intensity = gray[y_clamped, x_clamped]`)
from the variable `gray` — which line 692 rebound to the inverted frame
`cv2.bitwise_not(gray)` before this loop runs.  `gray0` is the frame as it
was at line 648, straight from `cv2.cvtColor`; `rows`/`cols` are
`gray.shape[0]`/`gray.shape[1]`. -/
def extractFaceDots (gray0 : ℕ → ℕ → ℕ) (rows cols fx fy fw fh : ℕ)
    (keypoints : List (ℕ × ℕ)) : List DotPoint :=
  let gray := bitwiseNotFrame gray0
  keypoints.filterMap fun kp =>
    if fx < kp.1 ∧ kp.1 < fx + fw ∧ fy < kp.2 ∧ kp.2 < fy + fh then
      some { x := kp.1, y := kp.2,
             intensity := gray (max 0 (min kp.2 (rows - 1))) (max 0 (min kp.1 (cols - 1))) }
    else none

/-! ## Pipeline tail: dot-count gate and skipped stages -/

/-- What ran and what was returned after the dot-filter step. -/
structure PipelineTail where
  heatmap_stage_ran : Bool
  comparison_stage_ran : Bool
  verdict : Verdict
deriving DecidableEq

/-- Embeds the tail of `perform_liveness_check` after dot filtering:
line 804 `if len(face_dot_coords) > 5:` gates heatmap construction (in the
else branch, line 855, `heatmap_norm` stays `None` and the heatmap stage
never runs); line 860
`if heatmap_norm is not None and depth_model is not None and depth_processor is not None:`
gates the comparison stage; when it is skipped (line 981) the function
returns `is_live` still `False` (line 645) with `similarity_score` `-1.0`
(line 858).  `heatmap_ok` is whether the heatmap `try` block left
`heatmap_norm` non-None; `comparison` is the verdict the comparison block
produces when it runs. -/
def livenessTail (num_face_dots : ℕ) (heatmap_ok model_loaded : Bool)
    (comparison : Verdict) : PipelineTail :=
  if num_face_dots > 5 then
    if heatmap_ok && model_loaded then
      { heatmap_stage_ran := true, comparison_stage_ran := true, verdict := comparison }
    else
      { heatmap_stage_ran := true, comparison_stage_ran := false,
        verdict := { is_live := false, score := -1 } }
  else
    { heatmap_stage_ran := false, comparison_stage_ran := false,
      verdict := { is_live := false, score := -1 } }

/-! ## Theorems for the above -/

/-- C5: after the fill step no heatmap cell is NaN — every cell left
undefined by the interpolation is filled (with the map's own nanmedian, or
0 when every cell is undefined, in which case every cell of the result is
`some 0`). -/
theorem heatmap_no_nan_after_fill (heatmap_norm : List (List (Option ℚ))) :
    (∀ row ∈ handleHeatmapNaN heatmap_norm, ∀ c ∈ row, c ≠ none) ∧
    ((∀ row ∈ heatmap_norm, ∀ c ∈ row, c = none) →
      ∀ row ∈ handleHeatmapNaN heatmap_norm, ∀ c ∈ row, c = some 0) := by
  constructor
  · intro row hrow c hc
    unfold handleHeatmapNaN at hrow
    split at hrow
    · next hany =>
      obtain ⟨row0, _hrow0, rfl⟩ := List.mem_map.mp hrow
      obtain ⟨c0, _hc0, rfl⟩ := List.mem_map.mp hc
      simp
    · next hany =>
      intro heq
      subst heq
      exact hany (List.any_eq_true.mpr ⟨row, hrow,
        List.any_eq_true.mpr ⟨none, hc, rfl⟩⟩)
  · intro hall row hrow c hc
    unfold handleHeatmapNaN at hrow
    split at hrow
    · next hany =>
      obtain ⟨row0, hrow0, rfl⟩ := List.mem_map.mp hrow
      obtain ⟨c0, hc0, rfl⟩ := List.mem_map.mp hc
      have hc0none : c0 = none := hall row0 hrow0 c0 hc0
      subst hc0none
      have hjoin : heatmap_norm.flatten.filterMap id = [] := by
        rw [List.filterMap_eq_nil_iff]
        intro a ha
        obtain ⟨r, hr, har⟩ := List.mem_flatten.mp ha
        exact hall r hr a har
      have hmed : nanmedian heatmap_norm.flatten = none := by
        unfold nanmedian
        rw [hjoin]
        simp [List.mergeSort_nil]
      simp [hmed]
    · next hany =>
      have : c = none := hall row hrow c hc
      subst this
      exact absurd (List.any_eq_true.mpr ⟨row, hrow,
        List.any_eq_true.mpr ⟨none, hc, rfl⟩⟩) hany

/-- Witness for `heatmap_no_nan_after_fill` on a concrete 1 × 2 heatmap
with one defined and one NaN cell. -/
theorem heatmap_no_nan_after_fill_witness :
    ∀ row ∈ handleHeatmapNaN [[some (1 : ℚ), none]], ∀ c ∈ row, c ≠ none := by
  exact (heatmap_no_nan_after_fill [[some (1 : ℚ), none]]).1

/-- C1: whenever the comparison block raises (shape mismatch, degenerate
arrays, NaN propagation — any `Except.error`), the handler yields
`is_live = False` and `score = -1`, and `depthComparisonVerdict` returns
this verdict to the caller instead of propagating the exception. -/
theorem scoring_exception_fail_closed (fh_img fw_img fx fy fw fh : ℤ)
    (ssim_result : Except String ℚ) (e : String)
    (herr : depthComparisonBody fh_img fw_img fx fy fw fh ssim_result = Except.error e) :
    depthComparisonVerdict fh_img fw_img fx fy fw fh ssim_result =
      { is_live := false, score := -1 } := by
  unfold depthComparisonVerdict
  rw [herr]

/-- Witness for `scoring_exception_fail_closed`: a concrete SSIM failure on
a valid face box. -/
theorem scoring_exception_fail_closed_witness :
    depthComparisonVerdict 100 100 10 10 50 50
        (Except.error "NaN propagation during SSIM") =
      { is_live := false, score := -1 } :=
  scoring_exception_fail_closed 100 100 10 10 50 50
    (Except.error "NaN propagation during SSIM") "NaN propagation during SSIM" rfl

/-- C2 counterexample: a face box whose clamp is degenerate
(`fx = 100` in a width-100 frame, so `fw_c = 0`).  The raised `ValueError`
is absorbed by the enclosing `except` handler (line 974), so the check
returns the fail-closed verdict `is_live = False, score = -1` — no error
propagates to the caller, contradicting the claim that a hard InputError
propagates with no verdict returned. -/
theorem degenerate_roi_counterexample :
    depthComparisonBody 100 100 100 10 50 50 (Except.ok (1 / 2)) =
      Except.error "Invalid face ROI dimensions after clamping" ∧
    depthComparisonVerdict 100 100 100 10 50 50 (Except.ok (1 / 2)) =
      { is_live := false, score := -1 } := by
  constructor <;> rfl

/-- C2 amended: for every frame whose detected face region clamps to a
degenerate region, the comparison block raises
`ValueError("Invalid face ROI dimensions after clamping")` internally, but
the exception is caught by the scoring handler and the check returns the
fail-closed verdict `is_live = False, score = -1`; no error propagates to
the caller. -/
theorem degenerate_roi_absorbed (fh_img fw_img fx fy fw fh : ℤ)
    (ssim_result : Except String ℚ)
    (hdeg : min fw (fw_img - fx) ≤ 0 ∨ min fh (fh_img - fy) ≤ 0) :
    depthComparisonBody fh_img fw_img fx fy fw fh ssim_result =
      Except.error "Invalid face ROI dimensions after clamping" ∧
    depthComparisonVerdict fh_img fw_img fx fy fw fh ssim_result =
      { is_live := false, score := -1 } := by
  have hbody : depthComparisonBody fh_img fw_img fx fy fw fh ssim_result =
      Except.error "Invalid face ROI dimensions after clamping" := by
    unfold depthComparisonBody
    exact if_pos hdeg
  refine ⟨hbody, ?_⟩
  unfold depthComparisonVerdict
  rw [hbody]

/-- Witness for `degenerate_roi_absorbed` at the concrete degenerate box. -/
theorem degenerate_roi_absorbed_witness :
    depthComparisonVerdict 100 100 100 10 50 50 (Except.ok (1 / 2)) =
      { is_live := false, score := -1 } :=
  (degenerate_roi_absorbed 100 100 100 10 50 50 (Except.ok (1 / 2)) (by decide)).2

/-- C3 counterexample: a uniform frame of original grayscale value 10 with
one blob centroid at (5, 5) strictly inside the face box.  The recorded
intensity is 245 = 255 − 10, the value of the *inverted* frame, not the
pre-inversion value 10 the claim requires. -/
theorem dot_intensity_counterexample :
    extractFaceDots (fun _ _ => 10) 100 100 0 0 50 50 [(5, 5)] =
      [{ x := 5, y := 5, intensity := 245 }] ∧ (245 : ℕ) ≠ 10 := by
  constructor
  · rfl
  · decide

/-- C3 amended: for every blob retained strictly inside the face region,
the recorded intensity equals `255 −` the pre-enhancement grayscale value
at the clamped centroid — i.e. it is sampled from the inverted grayscale
frame (after the line-692 `bitwise_not`, before CLAHE and thresholding),
not from the pre-inversion frame. -/
theorem dot_intensity_is_inverted_gray (gray0 : ℕ → ℕ → ℕ)
    (rows cols fx fy fw fh : ℕ) (keypoints : List (ℕ × ℕ)) (d : DotPoint)
    (hd : d ∈ extractFaceDots gray0 rows cols fx fy fw fh keypoints) :
    d.intensity =
      255 - gray0 (max 0 (min d.y (rows - 1))) (max 0 (min d.x (cols - 1))) := by
  unfold extractFaceDots at hd
  obtain ⟨kp, _hkp, hsome⟩ := List.mem_filterMap.mp hd
  split at hsome
  · cases hsome
    simp [bitwiseNotFrame]
  · exact absurd hsome (by simp)

/-- Witness for `dot_intensity_is_inverted_gray` on the concrete uniform
frame. -/
theorem dot_intensity_is_inverted_gray_witness :
    ({ x := 5, y := 5, intensity := 245 } : DotPoint).intensity =
      255 - (fun _ _ : ℕ => 10) (max 0 (min 5 (100 - 1))) (max 0 (min 5 (100 - 1))) :=
  dot_intensity_is_inverted_gray (fun _ _ => 10) 100 100 0 0 50 50 [(5, 5)]
    { x := 5, y := 5, intensity := 245 } (by decide)

/-- C4 counterexample: with exactly 5 retained dots (even with a healthy
heatmap routine and a loaded depth model available), the heatmap stage and
the comparison stage are skipped entirely and the check returns the
hard-coded not-live verdict — the downstream stages do not execute,
contradicting the claim. -/
theorem five_dots_counterexample :
    livenessTail 5 true true { is_live := true, score := 1 } =
      { heatmap_stage_ran := false, comparison_stage_ran := false,
        verdict := { is_live := false, score := -1 } } := by
  rfl

/-- C4 amended: for every capture retaining five or fewer dots, the
downstream stages (heatmap construction, depth comparison, scoring) are all
skipped and the check returns the not-live verdict
`is_live = False, score = -1` without raising; there is no low-confidence
signal — the low dot count is absorbed into a hard not-live verdict. -/
theorem low_dot_count_skips_downstream (num_face_dots : ℕ)
    (heatmap_ok model_loaded : Bool) (comparison : Verdict)
    (hlow : num_face_dots ≤ 5) :
    livenessTail num_face_dots heatmap_ok model_loaded comparison =
      { heatmap_stage_ran := false, comparison_stage_ran := false,
        verdict := { is_live := false, score := -1 } } := by
  unfold livenessTail
  rw [if_neg (by omega)]

/-- Witness for `low_dot_count_skips_downstream` at exactly five dots. -/
theorem low_dot_count_skips_downstream_witness :
    livenessTail 5 true true { is_live := true, score := 1 } =
      { heatmap_stage_ran := false, comparison_stage_ran := false,
        verdict := { is_live := false, score := -1 } } :=
  low_dot_count_skips_downstream 5 true true { is_live := true, score := 1 }
    (by decide)

/-! ## Buffer model: no stage mutates the caller-supplied frame (C9)

Arrays live in a store indexed by buffer ids; Python variables are an
environment from names to buffer ids.  Each array statement of the source
either binds a name to a freshly allocated buffer (`fresh`, e.g. `.copy()`,
`cv2.cvtColor`, `np.array`), writes through a name into the buffer it
denotes (`inplace`, e.g. `cv2.rectangle(dst, ...)`, `dst[...] = v`,
`cv2.addWeighted(..., dst)`), or binds a name to an existing buffer
(`view`, e.g. numpy slicing, `.T`, plain assignment of an array variable).
The numeric content of each operation is an opaque parameter — only the
write targets and aliasing matter for the mutation claim. -/

/-- The array variables of `perform_liveness_check`
(recognition_server _before.py) and `_create_single_pseudo_depth_map`
(pseudo_depth_generator.py). -/
inductive BufName where
  | ir_dot_image_bgr | img_display | gray | gray_enhanced | thresh | kernel | opened
  | points | intensities | z_coords
  | overlay | points_xy | normalized_z_intensity | grid_x | grid_y
  | heatmap_norm | heatmap_vis | heatmap_color | mask | mask_roi
  | heatmap_color_masked | roi_overlay
  | image_pil_rgb | depth_inputs | predicted_depth | prediction
  | depth_map_model_full | depth_map_model_roi | depth_map_model_norm
  | depth_vis | depth_color | depth_roi | depth_vis_clamped | depth_color_clamped
  | depth_map_model_norm_resized | diff
  | face_roi | blurred_roi | normalized_blurred | data_for_plotting
  | display_data | display_mask_resized | data_to_colorize | display_data_color
  | display_mask_3ch | final_image_before_brightness | final_image_after_brightness
  | final_display_image
deriving DecidableEq

/-- A single array statement: allocate-and-bind, write-in-place through a
name, or rebind a name to an existing buffer. -/
inductive Stmt where
  | fresh (dst : BufName) (srcs : List BufName) (f : List (List ℤ) → List ℤ)
  | inplace (dst : BufName) (f : List ℤ → List ℤ)
  | view (dst : BufName) (src : BufName)

/-- Memory: the name environment, the buffer store, and the next fresh id. -/
structure Mem where
  env : BufName → ℕ
  store : ℕ → List ℤ
  next : ℕ

/-- One step of execution. -/
def Stmt.exec (m : Mem) : Stmt → Mem
  | Stmt.fresh dst srcs f =>
      { env := Function.update m.env dst m.next,
        store := Function.update m.store m.next
          (f (srcs.map fun s => m.store (m.env s))),
        next := m.next + 1 }
  | Stmt.inplace dst f =>
      { m with store := Function.update m.store (m.env dst) (f (m.store (m.env dst))) }
  | Stmt.view dst src =>
      { m with env := Function.update m.env dst (m.env src) }

/-- Execution of a statement list. -/
def execProgram (prog : List Stmt) (m : Mem) : Mem :=
  prog.foldl Stmt.exec m

/-- Which names may denote the input buffer after a statement: a fresh
binding never does, a view copies its source's status, an in-place write
changes no binding. -/
def aliasesInput (z : BufName → Bool) : Stmt → (BufName → Bool)
  | Stmt.fresh dst _ _ => Function.update z dst false
  | Stmt.inplace _ _ => z
  | Stmt.view dst src => Function.update z dst (z src)

/-- No in-place write in the statement list targets a name that may denote
the input buffer. -/
def noInputWrite : List Stmt → (BufName → Bool) → Bool
  | [], _ => true
  | s :: rest, z =>
    (match s with
     | Stmt.inplace dst _ => !z dst
     | _ => true) && noInputWrite rest (aliasesInput z s)

theorem noInputWrite_nil (z : BufName → Bool) : noInputWrite [] z = true := rfl

theorem noInputWrite_cons_fresh (d : BufName) (srcs : List BufName)
    (f : List (List ℤ) → List ℤ) (rest : List Stmt) (z : BufName → Bool) :
    noInputWrite (Stmt.fresh d srcs f :: rest) z =
      noInputWrite rest (Function.update z d false) := by
  simp [noInputWrite, aliasesInput]

theorem noInputWrite_cons_inplace (d : BufName) (f : List ℤ → List ℤ)
    (rest : List Stmt) (z : BufName → Bool) :
    noInputWrite (Stmt.inplace d f :: rest) z = (!z d && noInputWrite rest z) := by
  simp [noInputWrite, aliasesInput]

theorem noInputWrite_cons_view (d s : BufName) (rest : List Stmt)
    (z : BufName → Bool) :
    noInputWrite (Stmt.view d s :: rest) z =
      noInputWrite rest (Function.update z d (z s)) := by
  simp [noInputWrite, aliasesInput]

theorem noInputWrite_replicate_inplace (n : ℕ) (d : BufName)
    (f : List ℤ → List ℤ) (rest : List Stmt) (z : BufName → Bool)
    (hz : z d = false) :
    noInputWrite (List.replicate n (Stmt.inplace d f) ++ rest) z =
      noInputWrite rest z := by
  induction n with
  | zero => simp
  | succ k ih =>
    rw [List.replicate_succ, List.cons_append, noInputWrite_cons_inplace, hz, ih]
    rfl

/-- Core preservation lemma: if only non-input-denoting names are written
in place, the input buffer's contents survive the whole program. -/
theorem store_input_preserved (prog : List Stmt) :
    ∀ (z : BufName → Bool) (m : Mem),
      (∀ n, z n = false → m.env n ≠ 0) →
      0 < m.next →
      noInputWrite prog z = true →
      (execProgram prog m).store 0 = m.store 0 := by
  induction prog with
  | nil => intro z m _ _ _; rfl
  | cons s rest ih =>
    intro z m hz hnext hsafe
    have hstep : execProgram (s :: rest) m = execProgram rest (Stmt.exec m s) := rfl
    rw [hstep]
    cases s with
    | fresh dst srcs f =>
      rw [noInputWrite_cons_fresh] at hsafe
      have hz2 : ∀ n, Function.update z dst false n = false →
          (Stmt.exec m (Stmt.fresh dst srcs f)).env n ≠ 0 := by
        intro n hn
        simp only [Stmt.exec]
        by_cases h : n = dst
        · subst h
          rw [Function.update_same]
          omega
        · rw [Function.update_noteq h] at hn ⊢
          exact hz n hn
      have hnext2 : 0 < (Stmt.exec m (Stmt.fresh dst srcs f)).next := by
        simp only [Stmt.exec]
        omega
      rw [ih _ _ hz2 hnext2 hsafe]
      simp only [Stmt.exec]
      rw [Function.update_noteq (by omega)]
    | inplace dst f =>
      rw [noInputWrite_cons_inplace, Bool.and_eq_true] at hsafe
      obtain ⟨hzd, hsafe2⟩ := hsafe
      have hzd2 : z dst = false := by
        cases h : z dst
        · rfl
        · rw [h] at hzd; exact absurd hzd (by decide)
      have hz2 : ∀ n, z n = false → (Stmt.exec m (Stmt.inplace dst f)).env n ≠ 0 := by
        intro n hn
        simp only [Stmt.exec]
        exact hz n hn
      have hnext2 : 0 < (Stmt.exec m (Stmt.inplace dst f)).next := hnext
      rw [ih _ _ hz2 hnext2 hsafe2]
      simp only [Stmt.exec]
      rw [Function.update_noteq (Ne.symm (hz dst hzd2))]
    | view dst src =>
      rw [noInputWrite_cons_view] at hsafe
      have hz2 : ∀ n, Function.update z dst (z src) n = false →
          (Stmt.exec m (Stmt.view dst src)).env n ≠ 0 := by
        intro n hn
        simp only [Stmt.exec]
        by_cases h : n = dst
        · subst h
          rw [Function.update_same] at hn ⊢
          exact hz src hn
        · rw [Function.update_noteq h] at hn ⊢
          exact hz n hn
      exact ih _ _ hz2 hnext hsafe

/-- The caller's memory at entry: the input frame is buffer 0, bound to
`input`; no other name is bound to the input buffer. -/
def initMem (input : BufName) (store0 : ℕ → List ℤ) : Mem :=
  { env := fun n => if n = input then 0 else 1, store := store0, next := 1 }

/-- The array statements of `perform_liveness_check`
(recognition_server _before.py), in source order.  `opsN` interprets the
whole-array producers, `ops1` the in-place writers.  `num_face_dots` is the
number of retained keypoints (line 738 draws one circle per retained dot);
`many_dots` is the `len(face_dot_coords) > 5` condition of lines 750 and
804; `nan_present` is line 821's `np.isnan(...).any()`; `vis_shapes_ok` and
`overlay_shapes_ok` are the shape checks of lines 839 and 843;
`comparison_runs` is line 860's condition; `needs_resize` is line 934's
shape test.  Branches that perform no array statement contribute nothing. -/
def livenessProgram (opsN : String → List (List ℤ) → List ℤ)
    (ops1 : String → List ℤ → List ℤ) (num_face_dots : ℕ)
    (many_dots nan_present vis_shapes_ok overlay_shapes_ok
     comparison_runs needs_resize : Bool) : List Stmt :=
  [Stmt.fresh BufName.img_display [BufName.ir_dot_image_bgr] (opsN "copy"),
   Stmt.fresh BufName.gray [BufName.ir_dot_image_bgr] (opsN "cvtColor"),
   Stmt.inplace BufName.img_display (ops1 "rectangle"),
   Stmt.fresh BufName.gray [BufName.gray] (opsN "bitwise_not"),
   Stmt.fresh BufName.gray_enhanced [BufName.gray] (opsN "clahe_apply"),
   Stmt.fresh BufName.thresh [BufName.gray_enhanced] (opsN "adaptiveThreshold"),
   Stmt.fresh BufName.kernel [] (opsN "ones"),
   Stmt.fresh BufName.opened [BufName.thresh, BufName.kernel] (opsN "erode"),
   Stmt.fresh BufName.opened [BufName.opened, BufName.kernel] (opsN "dilate")]
  ++ List.replicate num_face_dots (Stmt.inplace BufName.img_display (ops1 "circle"))
  ++ (if many_dots then
       [Stmt.fresh BufName.points [] (opsN "array"),
        Stmt.fresh BufName.intensities [] (opsN "array"),
        Stmt.fresh BufName.z_coords [BufName.intensities] (opsN "scale")]
      else [])
  ++ [Stmt.fresh BufName.overlay [BufName.img_display] (opsN "copy")]
  ++ (if many_dots then
       [Stmt.fresh BufName.points_xy [] (opsN "array"),
        Stmt.fresh BufName.intensities [] (opsN "array"),
        Stmt.fresh BufName.normalized_z_intensity [BufName.intensities] (opsN "divide"),
        Stmt.fresh BufName.grid_x [] (opsN "mgrid"),
        Stmt.fresh BufName.grid_y [] (opsN "mgrid"),
        Stmt.fresh BufName.heatmap_norm
          [BufName.points_xy, BufName.normalized_z_intensity,
           BufName.grid_x, BufName.grid_y] (opsN "griddata"),
        Stmt.view BufName.heatmap_norm BufName.heatmap_norm]
       ++ (if nan_present then
            [Stmt.fresh BufName.heatmap_norm [BufName.heatmap_norm] (opsN "nan_to_num")]
           else [])
       ++ [Stmt.fresh BufName.heatmap_vis [BufName.heatmap_norm] (opsN "normalize"),
           Stmt.fresh BufName.heatmap_color [BufName.heatmap_vis] (opsN "applyColorMap"),
           Stmt.fresh BufName.mask [] (opsN "zeros"),
           Stmt.inplace BufName.mask (ops1 "rectangle"),
           Stmt.view BufName.mask_roi BufName.mask]
       ++ (if vis_shapes_ok then
            [Stmt.fresh BufName.heatmap_color_masked
               [BufName.heatmap_color, BufName.mask_roi] (opsN "bitwise_and"),
             Stmt.view BufName.roi_overlay BufName.overlay]
            ++ (if overlay_shapes_ok then
                 [Stmt.inplace BufName.roi_overlay (ops1 "addWeighted"),
                  Stmt.inplace BufName.overlay (ops1 "setitem")]
                else [])
           else [])
      else [])
  ++ (if comparison_runs then
       [Stmt.fresh BufName.image_pil_rgb [BufName.ir_dot_image_bgr] (opsN "cvtColor"),
        Stmt.fresh BufName.depth_inputs [BufName.image_pil_rgb] (opsN "processor"),
        Stmt.fresh BufName.predicted_depth [BufName.depth_inputs] (opsN "model"),
        Stmt.fresh BufName.prediction [BufName.predicted_depth] (opsN "interpolate"),
        Stmt.fresh BufName.depth_map_model_full [BufName.prediction] (opsN "to_numpy"),
        Stmt.view BufName.depth_map_model_roi BufName.depth_map_model_full,
        Stmt.fresh BufName.depth_map_model_norm
          [BufName.depth_map_model_roi] (opsN "normalize"),
        Stmt.fresh BufName.depth_vis [BufName.depth_map_model_roi] (opsN "normalize"),
        Stmt.fresh BufName.depth_color [BufName.depth_vis] (opsN "applyColorMap"),
        Stmt.fresh BufName.depth_roi [BufName.depth_map_model_roi] (opsN "copy"),
        Stmt.inplace BufName.depth_roi (ops1 "clamp_low"),
        Stmt.inplace BufName.depth_roi (ops1 "clamp_high"),
        Stmt.fresh BufName.depth_vis_clamped [BufName.depth_roi] (opsN "normalize"),
        Stmt.fresh BufName.depth_color_clamped
          [BufName.depth_vis_clamped] (opsN "applyColorMap")]
       ++ (if needs_resize then
            [Stmt.fresh BufName.depth_map_model_norm_resized
               [BufName.depth_map_model_norm] (opsN "resize")]
           else
            [Stmt.view BufName.depth_map_model_norm_resized BufName.depth_map_model_norm])
       ++ [Stmt.fresh BufName.diff
             [BufName.heatmap_norm, BufName.depth_map_model_norm_resized] (opsN "ssim")]
      else [])

/-- The array statements of `_create_single_pseudo_depth_map`
(pseudo_depth_generator.py), in source order.  `blur_ok` is whether the
line-41 `GaussianBlur` succeeded (on `cv2.error`, line 44 rebinds
`blurred_roi = face_roi`); the line-57/60 ellipse-vs-fill choice writes the
same freshly created `mask` buffer either way; `do_colormap` is the line-78
flag, `invert_cmap` line 81, `colormap_ok` whether the colormap block
completed (setting `is_color`); `adjust_brightness` is the line-95
condition, `brightness_ok` whether `convertScaleAbs` succeeded (the except
branch, line 107, reverts the binding); `final_ok` is line 111's `is_color`
together with a positive kernel and a successful final blur (every failing
or skipped branch leaves `final_display_image` bound as at line 110). -/
def pseudoDepthProgram (opsN : String → List (List ℤ) → List ℤ)
    (ops1 : String → List ℤ → List ℤ)
    (blur_ok ellipse_ok do_colormap invert_cmap colormap_ok
     adjust_brightness brightness_ok final_ok : Bool) : List Stmt :=
  [if blur_ok then Stmt.fresh BufName.blurred_roi [BufName.face_roi] (opsN "GaussianBlur")
   else Stmt.view BufName.blurred_roi BufName.face_roi,
   Stmt.fresh BufName.normalized_blurred [BufName.blurred_roi] (opsN "normalize"),
   Stmt.fresh BufName.data_for_plotting [BufName.normalized_blurred] (opsN "copy"),
   Stmt.fresh BufName.mask [] (opsN "zeros"),
   Stmt.inplace BufName.mask (ops1 (if ellipse_ok then "ellipse" else "fill")),
   Stmt.fresh BufName.data_for_plotting
     [BufName.data_for_plotting, BufName.mask] (opsN "bitwise_and_masked"),
   Stmt.fresh BufName.display_data [BufName.data_for_plotting] (opsN "resize"),
   Stmt.fresh BufName.display_mask_resized [BufName.mask] (opsN "resize"),
   Stmt.view BufName.final_image_before_brightness BufName.display_data]
  ++ (if do_colormap then
       [Stmt.view BufName.data_to_colorize BufName.display_data]
       ++ (if invert_cmap then
            [Stmt.fresh BufName.data_to_colorize [BufName.display_data] (opsN "invert")]
           else [])
       ++ (if colormap_ok then
            [Stmt.fresh BufName.display_data_color
               [BufName.data_to_colorize] (opsN "applyColorMap"),
             Stmt.fresh BufName.display_mask_3ch
               [BufName.display_mask_resized] (opsN "cvtColor"),
             Stmt.fresh BufName.final_image_before_brightness
               [BufName.display_data_color, BufName.display_mask_3ch] (opsN "bitwise_and")]
           else [])
      else [])
  ++ [Stmt.view BufName.final_image_after_brightness BufName.final_image_before_brightness]
  ++ (if adjust_brightness then
       (if brightness_ok then
         [Stmt.fresh BufName.final_image_after_brightness
            [BufName.final_image_before_brightness] (opsN "convertScaleAbs"),
          Stmt.fresh BufName.display_mask_3ch
            [BufName.display_mask_resized] (opsN "cvtColor"),
          Stmt.fresh BufName.final_image_after_brightness
            [BufName.final_image_after_brightness, BufName.display_mask_3ch]
            (opsN "bitwise_and")]
        else
         [Stmt.view BufName.final_image_after_brightness
            BufName.final_image_before_brightness])
      else [])
  ++ [Stmt.view BufName.final_display_image BufName.final_image_after_brightness]
  ++ (if final_ok then
       [Stmt.fresh BufName.final_display_image
          [BufName.final_image_after_brightness] (opsN "GaussianBlur"),
        Stmt.fresh BufName.display_mask_3ch
          [BufName.display_mask_resized] (opsN "cvtColor"),
        Stmt.fresh BufName.final_display_image
          [BufName.final_display_image, BufName.display_mask_3ch] (opsN "bitwise_and")]
      else
       [Stmt.view BufName.final_display_image BufName.final_image_after_brightness])

set_option maxHeartbeats 4000000 in
/-- No statement of `perform_liveness_check` writes in place through a name
that may denote the input frame, for every branch outcome. -/
theorem livenessProgram_safe (opsN : String → List (List ℤ) → List ℤ)
    (ops1 : String → List ℤ → List ℤ) (num_face_dots : ℕ)
    (many_dots nan_present vis_shapes_ok overlay_shapes_ok
     comparison_runs needs_resize : Bool) :
    noInputWrite (livenessProgram opsN ops1 num_face_dots many_dots nan_present
        vis_shapes_ok overlay_shapes_ok comparison_runs needs_resize)
      (fun n => decide (n = BufName.ir_dot_image_bgr)) = true := by
  cases many_dots <;> cases nan_present <;> cases vis_shapes_ok <;>
    cases overlay_shapes_ok <;> cases comparison_runs <;> cases needs_resize <;>
  · simp only [livenessProgram, List.cons_append, List.nil_append,
      List.append_assoc, List.append_nil, Bool.false_eq_true, if_true, if_false,
      noInputWrite_cons_fresh, noInputWrite_cons_inplace, noInputWrite_cons_view]
    rw [noInputWrite_replicate_inplace _ _ _ _ _ (by simp [Function.update])]
    simp [noInputWrite_cons_fresh, noInputWrite_cons_inplace,
      noInputWrite_cons_view, noInputWrite_nil, Function.update]

set_option maxHeartbeats 8000000 in
/-- No statement of `_create_single_pseudo_depth_map` writes in place
through a name that may denote the input crop, for every branch outcome. -/
theorem pseudoDepthProgram_safe (opsN : String → List (List ℤ) → List ℤ)
    (ops1 : String → List ℤ → List ℤ)
    (blur_ok ellipse_ok do_colormap invert_cmap colormap_ok
     adjust_brightness brightness_ok final_ok : Bool) :
    noInputWrite (pseudoDepthProgram opsN ops1 blur_ok ellipse_ok do_colormap
        invert_cmap colormap_ok adjust_brightness brightness_ok final_ok)
      (fun n => decide (n = BufName.face_roi)) = true := by
  cases blur_ok <;> cases do_colormap <;> cases invert_cmap <;>
    cases colormap_ok <;> cases adjust_brightness <;> cases brightness_ok <;>
    cases final_ok <;>
  · simp only [pseudoDepthProgram, List.cons_append, List.nil_append,
      List.append_assoc, List.append_nil, Bool.false_eq_true, if_true, if_false,
      noInputWrite_cons_fresh, noInputWrite_cons_inplace, noInputWrite_cons_view]
    simp [noInputWrite_cons_fresh, noInputWrite_cons_inplace,
      noInputWrite_cons_view, noInputWrite_nil, Function.update]

/-- C9: the caller-supplied input frame is never mutated.  For every
interpretation of the image operations, every dot count, every branch
outcome and every initial store, executing all array statements of
`perform_liveness_check` leaves the contents of the input buffer
(`ir_dot_image_bgr`, buffer 0) unchanged, and likewise executing all array
statements of `_create_single_pseudo_depth_map` leaves its input buffer
(`face_roi`) unchanged: every stage writes only to freshly allocated
buffers or to buffers derived from them. -/
theorem input_frame_not_mutated
    (opsN : String → List (List ℤ) → List ℤ) (ops1 : String → List ℤ → List ℤ)
    (num_face_dots : ℕ)
    (many_dots nan_present vis_shapes_ok overlay_shapes_ok
     comparison_runs needs_resize : Bool)
    (blur_ok ellipse_ok do_colormap invert_cmap colormap_ok
     adjust_brightness brightness_ok final_ok : Bool)
    (store0 : ℕ → List ℤ) :
    (execProgram (livenessProgram opsN ops1 num_face_dots many_dots nan_present
        vis_shapes_ok overlay_shapes_ok comparison_runs needs_resize)
        (initMem BufName.ir_dot_image_bgr store0)).store 0 = store0 0 ∧
    (execProgram (pseudoDepthProgram opsN ops1 blur_ok ellipse_ok do_colormap
        invert_cmap colormap_ok adjust_brightness brightness_ok final_ok)
        (initMem BufName.face_roi store0)).store 0 = store0 0 := by
  constructor
  · refine store_input_preserved _ (fun n => decide (n = BufName.ir_dot_image_bgr))
      (initMem BufName.ir_dot_image_bgr store0) ?_ ?_ ?_
    · intro n hn
      simp only [decide_eq_false_iff_not] at hn
      simp [initMem, hn]
    · exact Nat.one_pos
    · exact livenessProgram_safe opsN ops1 num_face_dots many_dots nan_present
        vis_shapes_ok overlay_shapes_ok comparison_runs needs_resize
  · refine store_input_preserved _ (fun n => decide (n = BufName.face_roi))
      (initMem BufName.face_roi store0) ?_ ?_ ?_
    · intro n hn
      simp only [decide_eq_false_iff_not] at hn
      simp [initMem, hn]
    · exact Nat.one_pos
    · exact pseudoDepthProgram_safe opsN ops1 blur_ok ellipse_ok do_colormap
        invert_cmap colormap_ok adjust_brightness brightness_ok final_ok

end DoorUnlock
